import Mathlib

/-!
Verification of `src/systest/include/git2-systest-win32.h`, a twelve-line
compatibility shim:

      ifndef GIT2_SYS_TEST_WIN32_COMPAT_H
      define GIT2_SYS_TEST_WIN32_COMPAT_H
      if defined(_MSC_VER) && !defined(_MODE_T_DEFINED)
      typedef unsigned short mode_t;
      define _MODE_T_DEFINED
      endif
      endif

We embed the preprocessor-visible state of a translation unit and the
effect of one textual inclusion of the header as a state-transition
function, then prove the contract: conditional declaration, idempotence,
frame conditions, and determinism in the two ambient booleans.
-/

/-- The C types that appear in the header.  The header declares exactly one
alias, whose underlying type is `unsigned short`. -/
inductive CType where
  | unsignedShort
  deriving DecidableEq, Repr

/-- Bit width of a C type on the targeted (MSVC / Win32) toolchain.
`unsigned short` is 16 bits wide on every MSVC target. -/
def msvcBitWidth : CType → Nat
  | CType.unsignedShort => 16

/-- A typedef declaration contributed to the translation unit: the
introduced identifier and its underlying type. -/
structure TypedefDecl where
  name : String
  type : CType
  deriving DecidableEq, Repr

/-- The typedef the header may contribute: `typedef unsigned short mode_t;`
(line 8 of the source). -/
def modeTTypedef : TypedefDecl :=
  ⟨"mode_t", CType.unsignedShort⟩

/-- Preprocessor-visible state of a translation unit, restricted to what the
header can test or change:

* `msvc` — whether `_MSC_VER` is defined (the compiler-identity predicate,
  supplied by the toolchain; the header never changes it);
* `guardDefined` — whether the include-guard macro
  `GIT2_SYS_TEST_WIN32_COMPAT_H` is defined;
* `modeTDefined` — whether the feature flag `_MODE_T_DEFINED` is defined;
* `decls` — the typedef declarations visible so far in the translation
  unit, in order of appearance. -/
structure TUState where
  msvc : Bool
  guardDefined : Bool
  modeTDefined : Bool
  decls : List TypedefDecl
  deriving DecidableEq, Repr

/-- One textual inclusion of `git2-systest-win32.h`, line by line: if the
include-guard macro is already defined the whole body is skipped; otherwise
the guard macro is defined, and then, if `_MSC_VER` is defined and
`_MODE_T_DEFINED` is not, the typedef is declared and `_MODE_T_DEFINED` is
defined. -/
def includeHeader (s : TUState) : TUState :=
  if s.guardDefined then
    s
  else
    let s1 := { s with guardDefined := true }
    if s1.msvc && !s1.modeTDefined then
      { s1 with
        decls := s1.decls ++ [modeTTypedef]
        modeTDefined := true }
    else
      s1

/-- `n` successive textual inclusions of the header. -/
def includeN : Nat → TUState → TUState
  | 0, s => s
  | n + 1, s => includeN n (includeHeader s)

/-- Number of typedef declarations of the identifier `mode_t` visible in the
translation unit. -/
def modeTDeclCount (s : TUState) : Nat :=
  (s.decls.filter (fun d => d.name = "mode_t")).length

/-- A translation unit compiles without a redefinition diagnostic when no
typedef identifier is declared twice. -/
def noRedefinition (s : TUState) : Prop :=
  (s.decls.map TypedefDecl.name).Nodup

instance (s : TUState) : Decidable (noRedefinition s) := by
  unfold noRedefinition
  infer_instance

/-- The declarations the header contributed after `n` inclusions starting
from state `s` (the header only ever appends to `decls`). -/
def addedDecls (n : Nat) (s : TUState) : List TypedefDecl :=
  ((includeN n s).decls).drop s.decls.length

-- Basic lemmas about the transition function.

theorem includeHeader_guardDefined (s : TUState) :
    (includeHeader s).guardDefined = true := by
  unfold includeHeader
  by_cases hg : s.guardDefined
  · simp [hg]
  · simp only [hg]
    by_cases hc : s.msvc && !s.modeTDefined
    · simp [hc]
    · simp [hc]

theorem includeHeader_of_guardDefined (s : TUState)
    (h : s.guardDefined = true) : includeHeader s = s := by
  unfold includeHeader
  simp [h]

theorem includeHeader_msvc (s : TUState) :
    (includeHeader s).msvc = s.msvc := by
  unfold includeHeader
  by_cases hg : s.guardDefined
  · simp [hg]
  · simp only [hg]
    by_cases hc : s.msvc && !s.modeTDefined
    · simp [hc]
    · simp [hc]

theorem includeN_of_guardDefined (n : Nat) (s : TUState)
    (h : s.guardDefined = true) : includeN n s = s := by
  induction n with
  | zero => rfl
  | succ k ih =>
      show includeN k (includeHeader s) = s
      rw [includeHeader_of_guardDefined s h, ih]

theorem includeN_eq_includeHeader (n : Nat) (s : TUState) (hn : 1 ≤ n) :
    includeN n s = includeHeader s := by
  cases n with
  | zero => exact absurd hn (by decide)
  | succ k =>
      show includeN k (includeHeader s) = includeHeader s
      exact includeN_of_guardDefined k (includeHeader s)
        (includeHeader_guardDefined s)

theorem includeHeader_decls_cases (s : TUState) (hg : s.guardDefined = false) :
    (s.msvc = true ∧ s.modeTDefined = false ∧
      (includeHeader s).decls = s.decls ++ [modeTTypedef] ∧
      (includeHeader s).modeTDefined = true) ∨
    ((s.msvc = false ∨ s.modeTDefined = true) ∧
      (includeHeader s).decls = s.decls ∧
      (includeHeader s).modeTDefined = s.modeTDefined) := by
  unfold includeHeader
  by_cases hm : s.msvc
  · by_cases hd : s.modeTDefined
    · right
      constructor
      · right; exact hd
      · simp [hg, hm, hd]
    · left
      refine ⟨hm, by simpa using hd, ?_, ?_⟩
      · simp [hg, hm, hd]
      · simp [hg, hm, hd]
  · right
    constructor
    · left; simpa using hm
    · simp [hg, hm]

theorem not_mem_of_modeTDeclCount_zero (s : TUState)
    (h0 : modeTDeclCount s = 0) :
    "mode_t" ∉ s.decls.map TypedefDecl.name := by
  intro hmem
  rcases List.mem_map.mp hmem with ⟨d, hd, hname⟩
  have hfil : d ∈ s.decls.filter (fun d => d.name = "mode_t") :=
    List.mem_filter.mpr ⟨hd, by simp [hname]⟩
  have hpos : 0 < modeTDeclCount s := by
    unfold modeTDeclCount
    exact List.length_pos_of_mem hfil
  omega

theorem modeTDeclCount_includeHeader_le (s : TUState) :
    modeTDeclCount (includeHeader s) ≤ modeTDeclCount s + 1 := by
  by_cases hg : s.guardDefined
  · rw [includeHeader_of_guardDefined s hg]
    exact Nat.le_succ _
  · rcases includeHeader_decls_cases s (by simpa using hg) with
      ⟨_, _, hdecls, _⟩ | ⟨_, hdecls, _⟩
    · unfold modeTDeclCount
      rw [hdecls, List.filter_append]
      simp [modeTTypedef]
    · unfold modeTDeclCount
      rw [hdecls]
      exact Nat.le_succ _

-- C1 through C10.

/-- C1: under the targeted compiler (`_MSC_VER` defined) with the feature
flag `_MODE_T_DEFINED` not yet set, a first inclusion of the header (include
guard not yet defined) declares the alias `mode_t` with underlying type
`unsigned short`, a 16-bit unsigned integer type, and sets the feature
flag. -/
theorem first_include_declares_mode_t (s : TUState)
    (hm : s.msvc = true) (hd : s.modeTDefined = false)
    (hg : s.guardDefined = false) :
    (includeHeader s).decls = s.decls ++ [modeTTypedef] ∧
    modeTTypedef.name = "mode_t" ∧
    modeTTypedef.type = CType.unsignedShort ∧
    msvcBitWidth modeTTypedef.type = 16 ∧
    (includeHeader s).modeTDefined = true := by
  rcases includeHeader_decls_cases s hg with
    ⟨_, _, hdecls, hflag⟩ | ⟨hbad, _, _⟩
  · exact ⟨hdecls, rfl, rfl, rfl, hflag⟩
  · rcases hbad with hbad | hbad
    · rw [hm] at hbad; exact absurd hbad (by decide)
    · rw [hd] at hbad; exact absurd hbad (by decide)

/-- Witness for C1 at the concrete fresh MSVC translation unit. -/
theorem first_include_declares_mode_t_witness :
    (includeHeader ⟨true, false, false, []⟩).decls =
      ([] : List TypedefDecl) ++ [modeTTypedef] ∧
    modeTTypedef.name = "mode_t" ∧
    modeTTypedef.type = CType.unsignedShort ∧
    msvcBitWidth modeTTypedef.type = 16 ∧
    (includeHeader ⟨true, false, false, []⟩).modeTDefined = true :=
  first_include_declares_mode_t ⟨true, false, false, []⟩ rfl rfl rfl

/-- C2: over any number of inclusions the header contributes the `mode_t`
typedef at most once: starting from a translation unit with no `mode_t`
typedef, after `n` inclusions at most one is visible; and in the concrete
scenario of two inclusions in sequence under the targeted compiler with no
prior definition, no typedef identifier is declared twice, so compilation
succeeds with no redefinition diagnostic. -/
theorem include_idempotent_no_redefinition (s : TUState)
    (h0 : modeTDeclCount s = 0) :
    (∀ n : Nat, modeTDeclCount (includeN n s) ≤ 1) ∧
    (noRedefinition s → noRedefinition (includeN 2 s)) := by
  constructor
  · intro n
    cases n with
    | zero =>
        show modeTDeclCount s ≤ 1
        rw [h0]; exact Nat.zero_le 1
    | succ k =>
        rw [includeN_eq_includeHeader (k + 1) s (Nat.succ_le_succ (Nat.zero_le k))]
        calc modeTDeclCount (includeHeader s)
            ≤ modeTDeclCount s + 1 := modeTDeclCount_includeHeader_le s
          _ = 1 := by rw [h0]
  · intro hnr
    rw [includeN_eq_includeHeader 2 s (by decide)]
    by_cases hg : s.guardDefined
    · rw [includeHeader_of_guardDefined s hg]; exact hnr
    · rcases includeHeader_decls_cases s (by simpa using hg) with
        ⟨_, _, hdecls, _⟩ | ⟨_, hdecls, _⟩
      · unfold noRedefinition at hnr ⊢
        rw [hdecls, List.map_append, List.nodup_append]
        refine ⟨hnr, by simp [modeTTypedef], ?_⟩
        intro a ha hb
        simp only [modeTTypedef, List.map_cons, List.map_nil,
          List.mem_singleton] at hb
        subst hb
        exact not_mem_of_modeTDeclCount_zero s h0 ha
      · unfold noRedefinition at hnr ⊢
        rw [hdecls]; exact hnr

/-- Witness for C2 at the concrete fresh MSVC translation unit. -/
theorem include_idempotent_no_redefinition_witness :
    (∀ n : Nat, modeTDeclCount (includeN n ⟨true, false, false, []⟩) ≤ 1) ∧
    (noRedefinition ⟨true, false, false, []⟩ →
      noRedefinition (includeN 2 ⟨true, false, false, []⟩)) :=
  include_idempotent_no_redefinition ⟨true, false, false, []⟩ rfl

/-- C3: under any compiler other than the targeted family (`_MSC_VER` not
defined), including the header contributes no declaration and leaves the
feature flag untouched: the only change is that the include-guard macro
becomes defined. -/
theorem non_msvc_include_no_effect (s : TUState) (hm : s.msvc = false) :
    includeHeader s = { s with guardDefined := true } ∧
    (includeHeader s).decls = s.decls ∧
    (includeHeader s).modeTDefined = s.modeTDefined := by
  have h : includeHeader s = { s with guardDefined := true } := by
    unfold includeHeader
    by_cases hg : s.guardDefined
    · simp [hg]
      cases s
      simp_all
    · simp [hg, hm]
  exact ⟨h, by rw [h], by rw [h]⟩

/-- Witness for C3 at a concrete non-MSVC translation unit. -/
theorem non_msvc_include_no_effect_witness :
    includeHeader ⟨false, false, false, []⟩ =
      { (⟨false, false, false, []⟩ : TUState) with guardDefined := true } ∧
    (includeHeader ⟨false, false, false, []⟩).decls =
      (⟨false, false, false, []⟩ : TUState).decls ∧
    (includeHeader ⟨false, false, false, []⟩).modeTDefined =
      (⟨false, false, false, []⟩ : TUState).modeTDefined :=
  non_msvc_include_no_effect ⟨false, false, false, []⟩ rfl

/-- C4: when the feature flag `_MODE_T_DEFINED` is already set before
inclusion, the header declares nothing additional: the declarations of the
translation unit are unchanged (only the include-guard macro becomes
defined), so a pre-existing definition of `mode_t` remains the sole
definition. -/
theorem flag_set_include_no_effect (s : TUState)
    (hd : s.modeTDefined = true) :
    includeHeader s = { s with guardDefined := true } ∧
    (includeHeader s).decls = s.decls ∧
    (includeHeader s).modeTDefined = s.modeTDefined := by
  have h : includeHeader s = { s with guardDefined := true } := by
    unfold includeHeader
    by_cases hg : s.guardDefined
    · simp [hg]
      cases s
      simp_all
    · simp [hg, hd]
  exact ⟨h, by rw [h], by rw [h]⟩

/-- Witness for C4: a translation unit that already declared its own
`mode_t` and set the feature flag keeps that sole declaration. -/
theorem flag_set_include_no_effect_witness :
    includeHeader ⟨true, false, true, [modeTTypedef]⟩ =
      { (⟨true, false, true, [modeTTypedef]⟩ : TUState) with
          guardDefined := true } ∧
    (includeHeader ⟨true, false, true, [modeTTypedef]⟩).decls =
      (⟨true, false, true, [modeTTypedef]⟩ : TUState).decls ∧
    (includeHeader ⟨true, false, true, [modeTTypedef]⟩).modeTDefined =
      (⟨true, false, true, [modeTTypedef]⟩ : TUState).modeTDefined :=
  flag_set_include_no_effect ⟨true, false, true, [modeTTypedef]⟩ rfl

/-- C5: whenever an inclusion of the header declares anything (its
declaration list changes), the same inclusion leaves the feature flag
`_MODE_T_DEFINED` set: the header never declares the alias without setting
the flag. -/
theorem declares_implies_flag_set (s : TUState)
    (h : (includeHeader s).decls ≠ s.decls) :
    (includeHeader s).modeTDefined = true := by
  by_cases hg : s.guardDefined
  · exact absurd (by rw [includeHeader_of_guardDefined s hg]) h
  · rcases includeHeader_decls_cases s (by simpa using hg) with
      ⟨_, _, _, hflag⟩ | ⟨_, hdecls, _⟩
    · exact hflag
    · exact absurd hdecls h

/-- Witness for C5 at the concrete fresh MSVC translation unit, where the
inclusion does declare the typedef. -/
theorem declares_implies_flag_set_witness :
    (includeHeader ⟨true, false, false, []⟩).modeTDefined = true :=
  declares_implies_flag_set ⟨true, false, false, []⟩ (by decide)

/-- C6: under the targeted compiler with the alias not already defined, the
declared alias `mode_t` has underlying type `unsigned short`, an unsigned
integer type of exactly 16-bit width, and compilation succeeds: no typedef
identifier is declared twice afterwards. -/
theorem mode_t_is_16_bit_unsigned (s : TUState)
    (hm : s.msvc = true) (hd : s.modeTDefined = false)
    (hg : s.guardDefined = false) (h0 : modeTDeclCount s = 0)
    (hnr : noRedefinition s) :
    (includeHeader s).decls = s.decls ++ [modeTTypedef] ∧
    modeTTypedef.type = CType.unsignedShort ∧
    msvcBitWidth CType.unsignedShort = 16 ∧
    noRedefinition (includeHeader s) := by
  rcases includeHeader_decls_cases s hg with
    ⟨_, _, hdecls, _⟩ | ⟨hbad, _, _⟩
  · refine ⟨hdecls, rfl, rfl, ?_⟩
    unfold noRedefinition at hnr ⊢
    rw [hdecls, List.map_append, List.nodup_append]
    refine ⟨hnr, by simp [modeTTypedef], ?_⟩
    intro a ha hb
    simp only [modeTTypedef, List.map_cons, List.map_nil,
      List.mem_singleton] at hb
    subst hb
    exact not_mem_of_modeTDeclCount_zero s h0 ha
  · rcases hbad with hbad | hbad
    · rw [hm] at hbad; exact absurd hbad (by decide)
    · rw [hd] at hbad; exact absurd hbad (by decide)

/-- Witness for C6 at the concrete fresh MSVC translation unit. -/
theorem mode_t_is_16_bit_unsigned_witness :
    (includeHeader ⟨true, false, false, []⟩).decls =
      ([] : List TypedefDecl) ++ [modeTTypedef] ∧
    modeTTypedef.type = CType.unsignedShort ∧
    msvcBitWidth CType.unsignedShort = 16 ∧
    noRedefinition (includeHeader ⟨true, false, false, []⟩) :=
  mode_t_is_16_bit_unsigned ⟨true, false, false, []⟩ rfl rfl rfl rfl
    (by decide)

/-- C7: the header's effect is a deterministic function of the two ambient
compile-time booleans.  For any two translation units that have not yet
processed the header and agree on the compiler-identity predicate and on
the feature flag, any positive numbers of inclusions contribute identical
declarations, an identical resulting feature flag, and an identical
resulting include-guard state, independent of count. -/
theorem header_effect_deterministic (s t : TUState) (n m : Nat)
    (hgs : s.guardDefined = false) (hgt : t.guardDefined = false)
    (hmsvc : s.msvc = t.msvc) (hflag : s.modeTDefined = t.modeTDefined)
    (hn : 1 ≤ n) (hm : 1 ≤ m) :
    addedDecls n s = addedDecls m t ∧
    (includeN n s).modeTDefined = (includeN m t).modeTDefined ∧
    (includeN n s).guardDefined = (includeN m t).guardDefined := by
  unfold addedDecls
  rw [includeN_eq_includeHeader n s hn, includeN_eq_includeHeader m t hm]
  refine ⟨?_, ?_, ?_⟩
  · rcases includeHeader_decls_cases s hgs with
      ⟨hsm, hsd, hsdecls, _⟩ | ⟨hsbad, hsdecls, _⟩
    · rcases includeHeader_decls_cases t hgt with
        ⟨_, _, htdecls, _⟩ | ⟨htbad, _, _⟩
      · rw [hsdecls, htdecls, List.drop_left, List.drop_left]
      · rcases htbad with hb | hb
        · rw [← hmsvc, hsm] at hb; exact absurd hb (by decide)
        · rw [← hflag, hsd] at hb; exact absurd hb (by decide)
    · rcases includeHeader_decls_cases t hgt with
        ⟨htm, htd, _, _⟩ | ⟨_, htdecls, _⟩
      · rcases hsbad with hb | hb
        · rw [hmsvc, htm] at hb; exact absurd hb (by decide)
        · rw [hflag, htd] at hb; exact absurd hb (by decide)
      · rw [hsdecls, htdecls, List.drop_length, List.drop_length]
  · rcases includeHeader_decls_cases s hgs with
      ⟨hsm, hsd, _, hsflag⟩ | ⟨hsbad, _, hsflag⟩
    · rcases includeHeader_decls_cases t hgt with
        ⟨_, _, _, htflag⟩ | ⟨htbad, _, _⟩
      · rw [hsflag, htflag]
      · rcases htbad with hb | hb
        · rw [← hmsvc, hsm] at hb; exact absurd hb (by decide)
        · rw [← hflag, hsd] at hb; exact absurd hb (by decide)
    · rcases includeHeader_decls_cases t hgt with
        ⟨htm, htd, _, _⟩ | ⟨_, _, htflag⟩
      · rcases hsbad with hb | hb
        · rw [hmsvc, htm] at hb; exact absurd hb (by decide)
        · rw [hflag, htd] at hb; exact absurd hb (by decide)
      · rw [hsflag, htflag, hflag]
  · rw [includeHeader_guardDefined s, includeHeader_guardDefined t]

/-- Witness for C7: one and three inclusions of the header, in two
translation units that agree on the two booleans but differ in their prior
declarations, contribute the same declarations and flags. -/
theorem header_effect_deterministic_witness :
    addedDecls 1 ⟨true, false, false, []⟩ =
      addedDecls 3 ⟨true, false, false, [⟨"size_t", CType.unsignedShort⟩]⟩ ∧
    (includeN 1 ⟨true, false, false, []⟩).modeTDefined =
      (includeN 3
        ⟨true, false, false, [⟨"size_t", CType.unsignedShort⟩]⟩).modeTDefined ∧
    (includeN 1 ⟨true, false, false, []⟩).guardDefined =
      (includeN 3
        ⟨true, false, false, [⟨"size_t", CType.unsignedShort⟩]⟩).guardDefined :=
  header_effect_deterministic ⟨true, false, false, []⟩
    ⟨true, false, false, [⟨"size_t", CType.unsignedShort⟩]⟩ 1 3
    rfl rfl rfl rfl (by decide) (by decide)

/-- C8: after any first processing of the header the include-guard macro is
defined, and every subsequent textual inclusion is a no-op — even when the
ambient macros (the feature flag, the compiler predicate, the visible
declarations) have changed in the meantime, as long as the guard macro
remains defined. -/
theorem guard_sticky_subsequent_noop (s t : TUState)
    (ht : t.guardDefined = (includeHeader s).guardDefined) :
    (includeHeader s).guardDefined = true ∧ includeHeader t = t := by
  have h1 := includeHeader_guardDefined s
  exact ⟨h1, includeHeader_of_guardDefined t (ht.trans h1)⟩

/-- Witness for C8: after a first inclusion in a fresh MSVC translation
unit, a later state in which the feature flag was meanwhile undefined again
is still left untouched by a further inclusion. -/
theorem guard_sticky_subsequent_noop_witness :
    (includeHeader ⟨true, false, false, []⟩).guardDefined = true ∧
    includeHeader ⟨true, true, false, [modeTTypedef]⟩ =
      ⟨true, true, false, [modeTTypedef]⟩ :=
  guard_sticky_subsequent_noop ⟨true, false, false, []⟩
    ⟨true, true, false, [modeTTypedef]⟩ rfl

/-- C9: under a non-targeted compiler the header never sets the feature
flag `_MODE_T_DEFINED` (and contributes no typedef): it never falsely
signals that `mode_t` is available. -/
theorem non_msvc_never_sets_flag (s : TUState) (hm : s.msvc = false) :
    (includeHeader s).modeTDefined = s.modeTDefined ∧
    (includeHeader s).decls = s.decls := by
  by_cases hg : s.guardDefined
  · rw [includeHeader_of_guardDefined s hg]
    exact ⟨rfl, rfl⟩
  · rcases includeHeader_decls_cases s (by simpa using hg) with
      ⟨hsm, _, _, _⟩ | ⟨_, hdecls, hflag⟩
    · rw [hm] at hsm; exact absurd hsm (by decide)
    · exact ⟨hflag, hdecls⟩

/-- Witness for C9 at a concrete non-MSVC translation unit with the flag
unset. -/
theorem non_msvc_never_sets_flag_witness :
    (includeHeader ⟨false, false, false, []⟩).modeTDefined =
      (⟨false, false, false, []⟩ : TUState).modeTDefined ∧
    (includeHeader ⟨false, false, false, []⟩).decls =
      (⟨false, false, false, []⟩ : TUState).decls :=
  non_msvc_never_sets_flag ⟨false, false, false, []⟩ rfl

/-- C10: the include guard takes precedence over the compiler condition: if
the guard macro is already defined before the first textual inclusion, the
inclusion contributes nothing at all — no typedef and no definition of the
feature flag — even under the targeted compiler with the feature flag
unset. -/
theorem guard_precedence_over_condition (s : TUState)
    (hg : s.guardDefined = true) :
    includeHeader s = s := by
  unfold includeHeader
  simp [hg]

/-- Witness for C10: the guard macro is predefined in an MSVC translation
unit with the feature flag unset, and inclusion changes nothing. -/
theorem guard_precedence_over_condition_witness :
    includeHeader ⟨true, true, false, []⟩ = ⟨true, true, false, []⟩ :=
  guard_precedence_over_condition ⟨true, true, false, []⟩ rfl
